import Mathlib

/-!
Verification of the interaction-routing and managed-state core of the `roid`
slash-command framework against its natural-language specification.

The Python source is shallowly embedded: pure fragments become Lean
functions, the mutable key/value state store becomes explicit state passing
over association lists keyed by `String`, Python exceptions become
`Except PyErr`, and the wall clock of the SQLite backend becomes an explicit
`Nat` timestamp argument.  Each definition carries a comment naming the
source construct it embeds (file and function).
-/

namespace Roid

/-- Exceptions raised by the embedded code.  Python exception classes that the
routing core raises or catches are represented by one constructor each;
`abortInvoke` carries the response details that `roid.exceptions.AbortInvoke`
stores (content, flags, response type index). -/
inductive PyErr where
  | typeError
  | valueError
  | keyError
  | attributeError
  | validationError
  | integrityError
  | abortInvoke (content : String) (flags : Int) (responseTypeVal : Nat)
  | userMissingPermissions (msg : String)
deriving DecidableEq, Repr

/-- Embeds `roid.interactions.InteractionType` (interactions.py:47-51). -/
inductive InteractionType where
  | PING
  | APPLICATION_COMMAND
  | MESSAGE_COMPONENT
  | APPLICATION_COMMAND_AUTOCOMPLETE
deriving DecidableEq, Repr

/-- Embeds `roid.objects.ResponseType` (objects.py:477-483). -/
inductive ResponseType where
  | PONG
  | CHANNEL_MESSAGE_WITH_SOURCE
  | DEFERRED_CHANNEL_MESSAGE_WITH_SOURCE
  | DEFERRED_UPDATE_MESSAGE
  | UPDATE_MESSAGE
  | APPLICATION_COMMAND_AUTOCOMPLETE_RESULT
deriving DecidableEq, Repr

/-- Embeds `roid.components.ComponentType` (components.py:42-45). -/
inductive ComponentType where
  | ACTION_ROW
  | BUTTON
  | SELECT_MENU
deriving DecidableEq, Repr

/-- Embeds `roid.interactions.CommandType` (interactions.py:10-13). -/
inductive CommandType where
  | CHAT_INPUT
  | USER
  | MESSAGE
deriving DecidableEq, Repr

/-- Embeds `roid.interactions.CommandOptionType` (interactions.py:16-26). -/
inductive CommandOptionType where
  | SUB_COMMAND
  | SUB_COMMAND_GROUP
  | STRING
  | INTEGER
  | BOOLEAN
  | USER
  | CHANNEL
  | ROLE
  | MENTIONABLE
  | NUMBER
deriving DecidableEq, Repr

/-- Equality of embedded fallible results is decidable (used to evaluate
closed claims on concrete inputs). -/
instance {ε α : Type} [DecidableEq ε] [DecidableEq α] :
    DecidableEq (Except ε α) := fun x y =>
  match x, y with
  | .ok a, .ok b =>
    if h : a = b then .isTrue (by rw [h])
    else .isFalse (fun e => h (Except.ok.inj e))
  | .error a, .error b =>
    if h : a = b then .isTrue (by rw [h])
    else .isFalse (fun e => h (Except.error.inj e))
  | .ok _, .error _ => .isFalse (fun e => Except.noConfusion e)
  | .error _, .ok _ => .isFalse (fun e => Except.noConfusion e)

/-- Python `str(x)` applied to an `Optional[str]` value, as it happens inside
f-strings such as `f"{data.custom_id}:{reference_id}"` (response.py:229) and
`f"{self.prefix}:{key}"` (managed.py:143): `None` prints as `"None"`. -/
def pyStr : Option String → String
  | some s => s
  | none => "None"

/-- Python's `s.split(":", maxsplit=1)` on the character list of `s`,
accumulating the prefix until the first `':'`.  Returns the head part and,
when a delimiter was found, the (unsplit) remainder. -/
def pySplitOnceAux : List Char → List Char → List Char × Option (List Char)
  | [], acc => (acc.reverse, none)
  | c :: rest, acc =>
    if c = ':' then (acc.reverse, some rest) else pySplitOnceAux rest (c :: acc)

/-- Python's `s.split(":", maxsplit=1)` as used by the dispatcher
(`custom_id, *_ = interaction.data.custom_id.split(":", maxsplit=1)`,
app.py:243) and by component invocation
(`_, *reference_id = interaction.data.custom_id.split(":", maxsplit=1)`,
components.py:316).  The first projection is the part before the first
delimiter; the second is `some` of everything after it when one exists. -/
def pySplitOnce (s : String) : String × Option String :=
  match pySplitOnceAux s.data [] with
  | (h, t) => (String.mk h, t.map String.mk)

/-- The custom-identifier concatenation performed at send time:
`data.custom_id = f"{data.custom_id}:{reference_id}"` (response.py:229,263). -/
def concatCustomId (base r : String) : String :=
  base ++ ":" ++ r

/-! ## Association-list key/value store

The managed state store (`roid.state`) is, from the point of view of the
routing core, a string-keyed map with `set` / `get` / `remove`
(managed.py:17-68).  All concrete backends serialize operations (the SQLite
backend through a single worker thread, storage.py:132-173), so each
operation is atomic.  The map is embedded as an association list. -/
/-- The value pickled into the store for a component reference id:
`{"parent": parent, **self._payload.component_context}` (response.py:231-236).
The parent interaction is represented by its id; the user-supplied
`component_context` entries are represented as string key/value pairs. -/
structure StoredCtx where
  parent : Option Int
  entries : List (String × String)
deriving DecidableEq, Repr

/-- The managed state store contents (one entry per stored key). -/
abbrev ManagedStore := List (String × StoredCtx)

/-- Embeds `State.get` (managed.py:41-57): the value for a key, `none` when absent. -/
def storeGet (s : ManagedStore) (k : String) : Option StoredCtx :=
  (s.find? (fun kv => kv.1 == k)).map (fun kv => kv.2)

/-- Embeds `State.remove` (managed.py:59-68): drop the entry for the key, if any. -/
def storeRemove (s : ManagedStore) (k : String) : ManagedStore :=
  s.filter (fun kv => !(kv.1 == k))

/-- Embeds `State.set` (managed.py:17-39): bind the key to the value.  The reference
ids the routing core stores under are freshly generated UUIDs, so insert and
upsert coincide; the embedding upserts. -/
def storeSet (s : ManagedStore) (k : String) (v : StoredCtx) : ManagedStore :=
  (k, v) :: storeRemove s k

/-- Embeds `roid.state.COMMAND_STATE_TARGET` (state/__init__.py:4). -/
def COMMAND_STATE_TARGET : String := "command-state"

/-- Embeds `PrefixedState` key namespacing: `f"{self.prefix}:{key}"`
(managed.py:142-149). -/
def prefKey (p k : String) : String :=
  p ++ ":" ++ k

/-! ## The embedded SQLite backend (`storage.py`)

`_SqliteRunner` owns a table `store (key TEXT PRIMARY KEY, store_value BLOB,
delete_after DOUBLE PRECISION)` (storage.py:150-158) and serializes every
operation through one worker thread, so `_set` / `_get` / `_delete` execute
atomically in submission order.  Timestamps are embedded as `Nat` seconds;
pickled blobs as `String`. -/
/-- One row of the `store` table. -/
structure SqliteRow where
  store_value : String
  delete_after : Option Nat
deriving DecidableEq, Repr

/-- The `store` table: at most one row per key (PRIMARY KEY). -/
abbrev SqliteDb := List (String × SqliteRow)

/-- Embeds `SELECT * FROM store WHERE key = ?` — the row for a key, if present. -/
def dbLookup (db : SqliteDb) (key : String) : Option SqliteRow :=
  (db.find? (fun kv => kv.1 == key)).map (fun kv => kv.2)

/-- Embeds `_SqliteRunner._delete` (storage.py:175-179):
`DELETE FROM store WHERE key = ?`. -/
def sqliteDelete (db : SqliteDb) (key : String) : SqliteDb :=
  db.filter (fun kv => !(kv.1 == key))

/-- Embeds `_SqliteRunner._set` (storage.py:181-196).  When a ttl is given the
stored expiry is `now + ttl` (`(datetime.utcnow() + ttl).timestamp()`); the
row is written with a bare `INSERT INTO store (key, store_value,
delete_after) VALUES (?, ?, ?)`, which has no upsert clause: if a row with
this key already exists — expired or not, since expired rows are only
removed lazily — SQLite raises an IntegrityError for the PRIMARY KEY
constraint and the table is left unchanged. -/
def sqliteSet (db : SqliteDb) (key value : String) (ttl : Option Nat)
    (now : Nat) : Except PyErr SqliteDb :=
  if (dbLookup db key).isSome then .error .integrityError
  else .ok ((key, ⟨value, ttl.map (fun t => now + t)⟩) :: db)

/-- Embeds `_SqliteRunner._get` (storage.py:198-215): fetch the row; a missing row
gives `None`; a row whose `delete_after` lies strictly in the past
(`datetime.utcnow() > datetime.utcfromtimestamp(delete_after)`) is deleted
lazily and `None` is returned; otherwise the stored value is returned.  The
second component is the table after the (possible) lazy eviction. -/
def sqliteGet (db : SqliteDb) (key : String) (now : Nat) :
    Option String × SqliteDb :=
  match dbLookup db key with
  | none => (none, db)
  | some row =>
    match row.delete_after with
    | none => (some row.store_value, db)
    | some d => if now > d then (none, sqliteDelete db key) else (some row.store_value, db)

/-! ## Interactions (`interactions.py`) -/
/-- A primitive option value: `Union[str, int, bool]` of
`OptionData.value` (interactions.py:62-74).  Float (`NUMBER`) payloads are
outside the embedding; no claim involves them. -/
inductive Prim where
  | str (s : String)
  | int (n : Int)
  | bool (b : Bool)
deriving DecidableEq, Repr

/-- Embeds `roid.objects.Member`, reduced to what the extractors touch: an opaque
member record plus the `user` attribute that `extract_user`
(extractors.py:16-21) fills in. -/
structure MemberM where
  base : String
  user : Option String
deriving DecidableEq, Repr

/-- Embeds `roid.interactions.ResolvedData` (interactions.py:54-59), with each
entity reduced to an opaque string representation keyed by its snowflake
id. -/
structure ResolvedM where
  users : List (Int × String)
  members : List (Int × MemberM)
  roles : List (Int × String)
  channels : List (Int × String)
  messages : List (Int × String)
deriving DecidableEq, Repr

/-- Embeds `roid.interactions.OptionData` (interactions.py:62-74). -/
structure OptionDataM where
  name : String
  type : CommandOptionType
  value : Option Prim
  focused : Bool
deriving DecidableEq, Repr

/-- Embeds `roid.interactions.InteractionData` (interactions.py:80-89), restricted
to the fields the routing core reads.  The pydantic model marks every field
optional. -/
structure InteractionDataM where
  name : Option String
  customId : Option String
  options : Option (List OptionDataM)
  values : Option (List String)
  resolved : Option ResolvedM
  targetId : Option Int
deriving DecidableEq, Repr

/-- Embeds `roid.interactions.Interaction` (interactions.py:92-103).  `data` is
`Optional` in the source; every dispatch path below reads through it, and
interactions that reach a handler carry data, so it is embedded as a plain
field. -/
structure InteractionM where
  id : Int
  type : InteractionType
  data : InteractionDataM
  token : String
deriving DecidableEq, Repr

/-! ## Handler keyword arguments

`OptionalAsyncCallable._get_kwargs` (callers.py:109-120) and its overrides
build a Python `kwargs` dict that is splatted into the user callback.  Keys
are embedded as `Option String` because `Component._get_kwargs` can use
`self._target_options_parameter` — an `Optional[str]` — as a dict key
(components.py:344-348). -/
/-- A registered option default (`Command._option_defaults`,
command.py:222-229): the function-signature default for the parameter, the
`Ellipsis` object for required options, or a `roid.command.SetValue`
object produced by `Option(...)`. -/
inductive OptDefault where
  | ellipsis
  | value (p : Prim)
  | pyNone
  | setValueObj (required : Bool) (d : Option Prim)
deriving DecidableEq, Repr

/-- A value produced by option extraction (extractors.py): an echoed
primitive, a resolved entity, or a registered default filled in afterwards
(command.py:410-413). -/
inductive ExtractedVal where
  | prim (p : Prim)
  | channel (c : String)
  | role (r : String)
  | member (m : MemberM)
  | userEnt (u : String)
  | messageEnt (m : String)
  | fillDefault (d : OptDefault)
deriving DecidableEq, Repr

/-- One value in the kwargs dict handed to a user callback. -/
inductive KwVal where
  | interaction
  | app
  | context (ref : Option String) (ctx : StoredCtx)
  | selectValue (v : String)
  | selectValues (vs : List String)
  | opt (v : ExtractedVal)
deriving DecidableEq, Repr

/-- The kwargs dict, in Python dict insertion order. -/
abbrev Kwargs := List (Option String × KwVal)

/-- Python `d[k] = v` on a dict embedded as an ordered association list:
an existing key keeps its position and takes the new value; a new key is
appended. -/
def dictSet (l : Kwargs) (k : Option String) (v : KwVal) : Kwargs :=
  if l.any (fun kv => kv.1 == k) then
    l.map (fun kv => if kv.1 == k then (k, v) else kv)
  else l ++ [(k, v)]

/-- Embeds `OptionalAsyncCallable._get_kwargs` (callers.py:109-120): inject the raw
interaction under the parameter annotated `Interaction`, then the app under
a parameter named `app`, in that order. -/
def baseKwargs (passInteractionTo : Option String) (passApp : Bool) : Kwargs :=
  (match passInteractionTo with
   | some p => [(some p, KwVal.interaction)]
   | none => []) ++
  (if passApp then [(some "app", KwVal.app)] else [])

/-! ## Component invocation (`components.py`) -/
/-- The registration-time shape of a `roid.components.Component`
(components.py:153-228): the `oneshot` flag, the parameter annotated
`InvokeContext` (`_pass_context_to`), the parameter names that carry
function-signature defaults, the callable-adapter injection flags, the
select-values parameter (`_target_options_parameter`) and the select's
min/max bounds (`data.min_values` / `data.max_values`). -/
structure ComponentModel where
  oneshot : Bool
  passContextTo : Option String
  defaults : List String
  passInteractionTo : Option String
  passApp : Bool
  targetOptionsParameter : Option String
  minValues : Option Nat
  maxValues : Option Nat
deriving DecidableEq, Repr

/-- Embeds `self._pass_context_to not in self.defaults` (components.py:330): the
defaults dict is keyed by parameter-name strings, so a component without an
`InvokeContext` parameter (`_pass_context_to is None`) also satisfies the
test. -/
def passContextNotInDefaults (c : ComponentModel) : Bool :=
  match c.passContextTo with
  | some p => !(c.defaults.contains p)
  | none => true

/-- The `ctx` dict returned by `Component._get_kwargs`
(components.py:350-355): the fetched context (if any) with
`"reference_id"` added. -/
structure CtxOut where
  base : Option StoredCtx
  referenceId : Option String
deriving DecidableEq, Repr

/-- The `AbortInvoke` raised for a missing context (components.py:331-335):
content `"This button has expired."`, `ResponseFlags.EPHEMERAL` (= 64),
`ResponseType.CHANNEL_MESSAGE_WITH_SOURCE` (= 4). -/
def expiredAbort : PyErr :=
  .abortInvoke "This button has expired." 64 4

/-- Embeds `Component._get_kwargs` (components.py:311-355), with the managed state
store threaded explicitly.  In source order: parse the reference id from
everything after the first `':'` of the inbound custom id; `state.get` it
through the `"command-state"` `PrefixedState`; build the base kwargs; attach
an `InvokeContext` when the component declares one and a context was found;
raise the expired `AbortInvoke` when no context was found and the context
parameter has no default; when `oneshot`, `state.remove` the entry — after
the read, before the callback runs; finally bind select values. -/
def componentGetKwargs (c : ComponentModel) (i : InteractionM)
    (store : ManagedStore) : Except PyErr (Kwargs × CtxOut) × ManagedStore :=
  match i.data.customId with
  | none => (.error .attributeError, store)
  | some cid =>
    let refId : Option String := (pySplitOnce cid).2
    let key := prefKey COMMAND_STATE_TARGET (pyStr refId)
    let ctx := storeGet store key
    let kwargs := baseKwargs c.passInteractionTo c.passApp
    let kwargs :=
      match c.passContextTo, ctx with
      | some p, some ctxv => dictSet kwargs (some p) (KwVal.context refId ctxv)
      | _, _ => kwargs
    if ctx.isNone && passContextNotInDefaults c then
      (.error expiredAbort, store)
    else
      let store := if c.oneshot then storeRemove store key else store
      let kwargs :=
        match i.data.values with
        | some (v :: vs) =>
          match c.minValues, c.maxValues with
          | none, none => dictSet kwargs c.targetOptionsParameter (KwVal.selectValue v)
          | some 1, some 1 => dictSet kwargs c.targetOptionsParameter (KwVal.selectValue v)
          | _, _ => dictSet kwargs c.targetOptionsParameter (KwVal.selectValues (v :: vs))
        | _ => kwargs
      (.ok (kwargs, ⟨ctx, refId⟩), store)

/-- The observable outcome of `Component._invoke` (components.py:299-309):
either the user callback runs with the kwargs `_get_kwargs` produced, or
the exception `_get_kwargs` raised propagates. -/
inductive ComponentOutcome where
  | handlerRan (kwargs : Kwargs) (ctx : CtxOut)
  | raised (e : PyErr)
deriving DecidableEq, Repr

/-- Embeds `Component._invoke` (components.py:299-309): the callback is invoked
exactly when `_get_kwargs` succeeds; its return value is not part of the
state claims. -/
def componentInvoke (c : ComponentModel) (i : InteractionM)
    (store : ManagedStore) : ComponentOutcome × ManagedStore :=
  match componentGetKwargs c i store with
  | (.ok (kw, ctx), s) => (.handlerRan kw ctx, s)
  | (.error e, s) => (.raised e, s)

/-- Witness inputs for C2: a oneshot button `btn` with a required
`InvokeContext` parameter named `ctx`, clicked with custom id `btn:r1`
against a store holding context for reference id `r1`. -/
def witnessComponent : ComponentModel :=
  ⟨true, some "ctx", [], none, false, none, none, none⟩

def witnessInteraction : InteractionM :=
  ⟨10, .MESSAGE_COMPONENT, ⟨none, some "btn:r1", none, none, none, none⟩, "tok"⟩

def witnessCtx : StoredCtx := ⟨some 99, [("count", "1")]⟩

def witnessStore : ManagedStore := [("command-state:r1", witnessCtx)]

/-! ## The oneshot race (claim C1)

`Component._get_kwargs` performs its two storage operations as separate
submissions to the (single-threaded, hence per-operation atomic) SQLite
runner: `ctx = await state.get(reference_id)` (components.py:325) and, when
`oneshot`, `await state.remove(reference_id)` (components.py:337-338).  Both
awaits suspend the clicking task, so a second concurrent click on the same
reference id can interleave its own operations between them.  Each click is
embedded as a task stepping through: read the context (atomic `get`), then
either finish expired (components.py:330-335, no further store operation,
for a required context parameter) or atomically `remove` and run the
handler with the fetched context. -/
/-- The outcome of one concurrent click. -/
inductive OneshotResult where
  | ranWith (ctx : StoredCtx)
  | expired
deriving DecidableEq, Repr

/-- The progress of one concurrent click through its storage operations. -/
inductive OneshotPhase where
  | ready
  | fetched (ctx : Option StoredCtx)
  | finished (r : OneshotResult)
deriving DecidableEq, Repr

/-- One atomic storage operation of a oneshot click (a required context
parameter assumed, as in the claim's scenario). -/
def oneshotStep (key : String) :
    OneshotPhase → ManagedStore → OneshotPhase × ManagedStore
  | .ready, s => (.fetched (storeGet s key), s)
  | .fetched (some c), s => (.finished (.ranWith c), storeRemove s key)
  | .fetched none, s => (.finished .expired, s)
  | .finished r, s => (.finished r, s)

/-- Run two concurrent clicks under a scheduler choice list: `true` steps
click A, `false` steps click B. -/
def runSchedule (key : String) :
    List Bool → OneshotPhase × OneshotPhase × ManagedStore →
      OneshotPhase × OneshotPhase × ManagedStore
  | [], st => st
  | pick :: rest, (a, b, s) =>
    if pick then
      let (a', s') := oneshotStep key a s
      runSchedule key rest (a', b, s')
    else
      let (b', s') := oneshotStep key b s
      runSchedule key rest (a, b', s')

def raceCtx : StoredCtx := ⟨some 7, [("count", "1")]⟩

def raceKey : String := prefKey COMMAND_STATE_TARGET "r1"

/-! ## Response normalization (`response.py`)

`Response.into_response_payload` (response.py:152-208) turns a handler's
`Response` into a wire payload, allocating a fresh reference id and writing
an `InvokeContext` entry into the `"command-state"` state for every
non-link component, via `Response.process_block` (response.py:210-274).
Fresh uuid4 reference ids are embedded as a generator function applied to a
running index.  The ttl argument that `state.set` forwards
(`component_context.get("ttl")`, response.py:236,270) belongs to the
backend layer modeled by `SqliteDb` and is not tracked in `ManagedStore`;
no claim about normalization involves expiry. -/
/-- The fields of `roid.components.ComponentContext` that normalization
reads or writes (components.py:67-78): the component kind, its custom id
and the link url. -/
structure CompCtxM where
  type : ComponentType
  custom_id : Option String
  url : Option String
deriving DecidableEq, Repr

/-- One element of a nested component list: a `Component` /
`DeferredComponent` (carrying its `.data` context), or any other object —
which `process_block` rejects with a `TypeError` (response.py:242-246). -/
inductive RowItem where
  | comp (data : CompCtxM)
  | invalid
deriving DecidableEq, Repr

/-- One entry of `Response._payload.components` (response.py:67-75): either
a bare component or an explicit action-row list. -/
inductive Block where
  | single (data : CompCtxM)
  | row (items : List RowItem)
deriving DecidableEq, Repr

/-- The state write for one non-link component (response.py:225-237 and
259-271): mint a fresh reference id, suffix it onto the custom id
(`f"{data.custom_id}:{reference_id}"`), and `state.set` the
`{"parent": parent, **component_context}` payload under the reference id
through the `"command-state"` prefix.  Link components (`url` set) are
returned unchanged with no state write. -/
def writeInvokeContext (gen : Nat → String) (st : ManagedStore × Nat)
    (parent : Option Int) (cctx : List (String × String)) (data : CompCtxM) :
    CompCtxM × (ManagedStore × Nat) :=
  match data.url with
  | some _ => (data, st)
  | none =>
    let ref := gen st.2
    let data' := { data with custom_id := some (concatCustomId (pyStr data.custom_id) ref) }
    let store' := storeSet st.1 (prefKey COMMAND_STATE_TARGET ref) ⟨parent, cctx⟩
    (data', (store', st.2 + 1))

/-- The outcome of `process_block` for one block: the produced action row or
the raised exception, the state afterwards, and the shared temporary
`component_block` list — which the caller's rollback also walks when the
block raised partway (response.py:180-201). -/
structure RowResult where
  result : Except PyErr (List CompCtxM)
  st : ManagedStore × Nat
  componentBlock : List CompCtxM
deriving Repr

/-- The `for c in block:` loop of `process_block` (response.py:241-274): a
non-component raises `TypeError`; a select menu on a row that already holds
a component raises `ValueError` (`len(component_block) > 0`,
response.py:253-257) — checked before this component's state write; every
non-link component gets a reference id and a state write, then is appended
to `component_block`. -/
def processBlockItems (gen : Nat → String) (parent : Option Int)
    (cctx : List (String × String)) :
    List RowItem → ManagedStore × Nat → List CompCtxM → RowResult
  | [], st, acc => ⟨.ok acc, st, acc⟩
  | .invalid :: _, st, acc => ⟨.error .typeError, st, acc⟩
  | .comp data :: rest, st, acc =>
    if data.type = ComponentType.SELECT_MENU ∧ acc.length > 0 then
      ⟨.error .valueError, st, acc⟩
    else
      let (data', st') := writeInvokeContext gen st parent cctx data
      processBlockItems gen parent cctx rest st' (acc ++ [data'])

/-- Embeds `Response.process_block` (response.py:210-274).  A bare component
becomes a one-element action row (response.py:219-239) without touching
`component_block`; a list is processed element-wise. -/
def processBlock (gen : Nat → String) (parent : Option Int)
    (cctx : List (String × String)) (b : Block) (st : ManagedStore × Nat) :
    RowResult :=
  match b with
  | .single data =>
    let (data', st') := writeInvokeContext gen st parent cctx data
    ⟨.ok [data'], st', []⟩
  | .row items => processBlockItems gen parent cctx items st []

/-- The fields of a handler `Response` (response.py:56-142) that
normalization reads: content, how many embeds, flags/tts, the component
blocks, the `component_context` mapping, `delete_parent` and the explicit
response type override. -/
structure ResponseM where
  content : Option String
  embedCount : Nat
  tts : Bool
  flags : Option Int
  components : Option (List Block)
  component_context : List (String × String)
  delete_parent : Bool
  response_type : Option ResponseType
deriving DecidableEq, Repr

/-- Embeds `Response.is_empty` (response.py:144-150):
`not (bool(content) or bool(embeds) or bool(components))`.  The payload
stores `embeds if embeds else None` and an empty component list is falsy. -/
def responseIsEmpty (r : ResponseM) : Bool :=
  !(r.content.isSome || decide (r.embedCount > 0) ||
    decide ((r.components.getD []).length > 0))

/-- The normalized `ResponseData` payload (response.py:19-28,205-207). -/
structure ResponseDataM where
  content : Option String
  embedCount : Nat
  tts : Bool
  flags : Option Int
  components : Option (List (List CompCtxM))
deriving DecidableEq, Repr

/-- Embeds `roid.response.ResponsePayload` (response.py:51-53). -/
structure ResponsePayloadM where
  type : ResponseType
  data : Option ResponseDataM
deriving DecidableEq, Repr

/-- The `for block in components:` loop of `into_response_payload`
(response.py:180-203) with its rollback: when a block raises, every
component already committed to a finished action row and every component on
the partially built `component_block` has its (already reference-suffixed)
`custom_id` removed from the state — `await state.remove(c.custom_id)`
(response.py:189-201) — and the exception is re-raised. -/
def normLoop (gen : Nat → String) (parent : Option Int)
    (cctx : List (String × String)) :
    List Block → ManagedStore × Nat → List (List CompCtxM) →
      Except PyErr (List (List CompCtxM)) × (ManagedStore × Nat)
  | [], st, rows => (.ok rows, st)
  | b :: rest, st, rows =>
    let res := processBlock gen parent cctx b st
    match res.result with
    | .ok row => normLoop gen parent cctx rest res.st (rows ++ [row])
    | .error e =>
      let s1 := rows.foldl
        (fun acc row => row.foldl
          (fun a c => match c.custom_id with
            | none => a
            | some cid => storeRemove a (prefKey COMMAND_STATE_TARGET cid)) acc)
        res.st.1
      let s2 := res.componentBlock.foldl
        (fun a c => match c.custom_id with
          | none => a
          | some cid => storeRemove a (prefKey COMMAND_STATE_TARGET cid)) s1
      (.error e, (s2, res.st.2))

/-- Embeds `Response.into_response_payload` (response.py:152-208): the
delete-parent and empty cases return a bare `DEFERRED_UPDATE_MESSAGE`;
without components the data is returned under
`CHANNEL_MESSAGE_WITH_SOURCE`; more than 5 rows raises `ValueError` before
any state write (response.py:171-176); otherwise the rows are processed
with rollback and the payload typed `self._response_type or default_type`. -/
def intoResponsePayload (gen : Nat → String) (r : ResponseM)
    (defaultType : ResponseType) (parent : Option Int)
    (st : ManagedStore × Nat) :
    Except PyErr ResponsePayloadM × (ManagedStore × Nat) :=
  if r.delete_parent && responseIsEmpty r then
    (.ok ⟨.DEFERRED_UPDATE_MESSAGE, none⟩, st)
  else if responseIsEmpty r then
    (.ok ⟨.DEFERRED_UPDATE_MESSAGE, none⟩, st)
  else
    match r.components with
    | none =>
      (.ok ⟨.CHANNEL_MESSAGE_WITH_SOURCE,
        some ⟨r.content, r.embedCount, r.tts, r.flags, none⟩⟩, st)
    | some blocks =>
      if blocks.length > 5 then (.error .valueError, st)
      else
        match normLoop gen parent r.component_context blocks st [] with
        | (.ok rows, st') =>
          (.ok ⟨r.response_type.getD defaultType,
            some ⟨r.content, r.embedCount, r.tts, r.flags, some rows⟩⟩, st')
        | (.error e, st') => (.error e, st')

/-- A concrete fresh-reference-id generator for closed evaluations. -/
def genRef (n : Nat) : String := "ref" ++ toString n

/-- A registered button's `ComponentContext` with the given custom id. -/
def btnCtx (id : String) : CompCtxM := ⟨.BUTTON, some id, none⟩

/-- A registered select menu's `ComponentContext` with the given custom id. -/
def selCtx (id : String) : CompCtxM := ⟨.SELECT_MENU, some id, none⟩

/-- The C3 failing input: a response with three component rows whose third
row places a select menu after a button, so validation raises on the third
row after `InvokeContext` entries were written for rows 1 and 2 (and for
the button of row 3). -/
def respC3 : ResponseM :=
  ⟨none, 0, false, none,
   some [.row [.comp (btnCtx "b1")], .row [.comp (btnCtx "b2")],
         .row [.comp (btnCtx "b3"), .comp (selCtx "s1")]],
   [("k", "v")], false, none⟩

/-- The C9 counterexample input: a single row holding a select menu
followed by a button. -/
def respC9 : ResponseM :=
  ⟨none, 0, false, none,
   some [.row [.comp (selCtx "s1"), .comp (btnCtx "b1")]],
   [], false, none⟩

/-! ## The inbound POST route (`SlashCommands.__root`, app.py:205-254)

The route reads the two signature headers (a missing header raises
`KeyError`), reads the body, hex-decodes the signature
(`bytes.fromhex(signature)`), and verifies an Ed25519 signature over
`timestamp || body` with pynacl's `VerifyKey.verify`.  Only
`BadSignatureError` and `KeyError` are caught and turned into HTTP 401
(app.py:215-216); the `ValueError` that `bytes.fromhex` raises for a
non-hex header, and that `VerifyKey.verify` raises for a signature that is
not exactly 64 bytes, escapes the route uncaught.  Only after verification
does the route run `json.loads(body)` and `Interaction(**data)`; the
embedding records those two calls as trace events.  The Ed25519 check
itself (libsodium's `crypto_sign_open`) is external to the repository and
is a parameter `verifySig` over the message and the decoded signature
bytes. -/
/-- An inbound POST request: the two headers and the raw body. -/
structure RawRequest where
  signatureHeader : Option String
  timestampHeader : Option String
  body : String
deriving DecidableEq, Repr

/-- Trace events for when the route touches the body. -/
inductive RootEvent where
  | jsonLoadsCalled
  | interactionValidateCalled
deriving DecidableEq, Repr

/-- The successful end of the route, up to handler invocation: the pong
reply or the resolved dispatch target (the invocation itself is embedded
separately by `commandCall` / `componentInvoke`). -/
inductive RootOk where
  | pong
  | dispatchCommand (name : String)
  | dispatchComponent (base : String)
deriving DecidableEq, Repr

/-- How the route fails: a `fastapi.HTTPException` with a status code, or
an exception escaping the handler uncaught. -/
inductive RootErr where
  | http (status : Nat)
  | uncaught (e : PyErr)
deriving DecidableEq, Repr

/-- The numeric value of one hex digit, if the character is one. -/
def hexVal (c : Char) : Option Nat :=
  if '0' ≤ c ∧ c ≤ '9' then some (c.toNat - '0'.toNat)
  else if 'a' ≤ c ∧ c ≤ 'f' then some (c.toNat - 'a'.toNat + 10)
  else if 'A' ≤ c ∧ c ≤ 'F' then some (c.toNat - 'A'.toNat + 10)
  else none

/-- Python's `bytes.fromhex` on a character list: pairs of hex digits;
anything else raises `ValueError` (embedded as `none`). -/
def pyBytesFromHexAux : List Char → Option (List Nat)
  | [] => some []
  | [_] => none
  | c1 :: c2 :: rest => do
    let h ← hexVal c1
    let l ← hexVal c2
    let tl ← pyBytesFromHexAux rest
    pure ((h * 16 + l) :: tl)

/-- Embeds `bytes.fromhex(signature)` (app.py:213). -/
def pyBytesFromHex (s : String) : Option (List Nat) :=
  pyBytesFromHexAux s.data

/-- The parsed-JSON value handed from `json.loads` to `Interaction(**data)`;
opaque to the routing logic. -/
abbrev PyJson := String

/-- Embeds `SlashCommands.__root` (app.py:205-254).  `verifySig` is applied to the
concatenated `timestamp ++ body` message and the decoded signature bytes;
`jsonLoads` embeds `json.loads` (`none` = `JSONDecodeError`, a `ValueError`
subclass, uncaught); `validateInteraction` embeds `Interaction(**data)`
(`none` = `pydantic.ValidationError`, turned into HTTP 422,
app.py:221-225).  `commands` and `components` are the registered names and
custom-id bases.  Returns the outcome and the trace of body-touching
events. -/
def root (verifySig : String → List Nat → Bool)
    (jsonLoads : String → Option PyJson)
    (validateInteraction : PyJson → Option InteractionM)
    (commands : List String) (components : List String)
    (req : RawRequest) : Except RootErr RootOk × List RootEvent :=
  match req.signatureHeader, req.timestampHeader with
  | none, _ => (.error (.http 401), [])
  | some _, none => (.error (.http 401), [])
  | some signature, some timestamp =>
    match pyBytesFromHex signature with
    | none => (.error (.uncaught .valueError), [])
    | some sigBytes =>
      if sigBytes.length ≠ 64 then (.error (.uncaught .valueError), [])
      else if !(verifySig (timestamp ++ req.body) sigBytes) then
        (.error (.http 401), [])
      else
        match jsonLoads req.body with
        | none => (.error (.uncaught .valueError), [.jsonLoadsCalled])
        | some data =>
          match validateInteraction data with
          | none => (.error (.http 422),
              [.jsonLoadsCalled, .interactionValidateCalled])
          | some interaction =>
            let ev : List RootEvent :=
              [.jsonLoadsCalled, .interactionValidateCalled]
            match interaction.type with
            | .PING => (.ok .pong, ev)
            | .APPLICATION_COMMAND =>
              match interaction.data.name with
              | some nm =>
                if commands.contains nm then (.ok (.dispatchCommand nm), ev)
                else (.error (.http 400), ev)
              | none => (.error (.http 400), ev)
            | .MESSAGE_COMPONENT =>
              match interaction.data.customId with
              | none => (.error (.http 400), ev)
              | some cid =>
                let base := (pySplitOnce cid).1
                if components.contains base then
                  (.ok (.dispatchComponent base), ev)
                else (.error (.http 400), ev)
            | .APPLICATION_COMMAND_AUTOCOMPLETE => (.error (.http 400), ev)

/-- The C4 counterexample request: both headers present, but the signature
header `"zz"` is not valid hex. -/
def reqBadHex : RawRequest := ⟨some "zz", some "123", "body"⟩

/-! ## Option extraction (`extractors.py`) -/
/-- Embeds `interaction.data.resolved` attribute access: `None` raises
`AttributeError` on the subsequent attribute lookup. -/
def getResolved (i : InteractionM) : Except PyErr ResolvedM :=
  match i.data.resolved with
  | some r => .ok r
  | none => .error .attributeError

/-- Python `d[k]` on a snowflake-keyed dict: `KeyError` when absent. -/
def lookupSnowflake {α : Type} (l : List (Int × α)) (k : Int) :
    Except PyErr α :=
  match (l.find? (fun kv => kv.1 == k)).map (fun kv => kv.2) with
  | some v => .ok v
  | none => .error .keyError

/-- Python `int(value)` on an option value: parse a string (else
`ValueError`), pass an int through, coerce a bool. -/
def pyIntOfValue : Prim → Except PyErr Int
  | .str s =>
    match s.toInt? with
    | some n => .ok n
    | none => .error .valueError
  | .int n => .ok n
  | .bool b => .ok (if b then 1 else 0)

/-- Embeds `extract_channel` (extractors.py:8-9). -/
def extract_channel (i : InteractionM) (value : Prim) :
    Except PyErr ExtractedVal := do
  let r ← getResolved i
  let n ← pyIntOfValue value
  let c ← lookupSnowflake r.channels n
  pure (.channel c)

/-- Embeds `extract_role` (extractors.py:12-13). -/
def extract_role (i : InteractionM) (value : Prim) :
    Except PyErr ExtractedVal := do
  let r ← getResolved i
  let n ← pyIntOfValue value
  let rl ← lookupSnowflake r.roles n
  pure (.role rl)

/-- Embeds `extract_user` (extractors.py:16-21): fetch the member and the user for
the snowflake and attach the user to the member. -/
def extract_user (i : InteractionM) (value : Prim) :
    Except PyErr ExtractedVal := do
  let r ← getResolved i
  let n ← pyIntOfValue value
  let m ← lookupSnowflake r.members n
  let u ← lookupSnowflake r.users n
  pure (.member { m with user := some u })

/-- Embeds `extract_mentionable` (extractors.py:24-28): try the roles dict, fall
back to `extract_user` on `KeyError` only. -/
def extract_mentionable (i : InteractionM) (value : Prim) :
    Except PyErr ExtractedVal := do
  let r ← getResolved i
  let n ← pyIntOfValue value
  match lookupSnowflake r.roles n with
  | .ok rl => pure (.role rl)
  | .error .keyError => extract_user i value
  | .error e => .error e

/-- Embeds `_echo` (extractors.py:31-32). -/
def pyEcho (_ : InteractionM) (v : Prim) : Except PyErr ExtractedVal :=
  .ok (.prim v)

/-- Embeds `OPTION_EXTRACTORS` (extractors.py:35-44): `SUB_COMMAND` and
`SUB_COMMAND_GROUP` have no entry, so indexing the dict with them raises
`KeyError`. -/
def OPTION_EXTRACTORS (t : CommandOptionType) :
    Option (InteractionM → Prim → Except PyErr ExtractedVal) :=
  match t with
  | .CHANNEL => some extract_channel
  | .ROLE => some extract_role
  | .USER => some extract_user
  | .MENTIONABLE => some extract_mentionable
  | .BOOLEAN => some pyEcho
  | .STRING => some pyEcho
  | .NUMBER => some pyEcho
  | .INTEGER => some pyEcho
  | .SUB_COMMAND => none
  | .SUB_COMMAND_GROUP => none

/-- Python `out[name] = opt` on the ordered extraction dict. -/
def dictSetE (l : List (String × ExtractedVal)) (k : String)
    (v : ExtractedVal) : List (String × ExtractedVal) :=
  if l.any (fun kv => kv.1 == k) then
    l.map (fun kv => if kv.1 == k then (k, v) else kv)
  else l ++ [(k, v)]

/-- The `for option in interaction.data.options:` loop of `extract_options`
(extractors.py:48-59): an option whose reported value is null is silently
skipped; otherwise the extractor for the option type runs and, when an enum
is registered for the option name, the value is converted through it
(`enum(opt)`, `ValueError` when the value is not a member). -/
def extractOptionsLoop (i : InteractionM) (enums : List (String × List Prim)) :
    List OptionDataM → List (String × ExtractedVal) →
      Except PyErr (List (String × ExtractedVal))
  | [], out => .ok out
  | o :: rest, out =>
    match o.value with
    | none => extractOptionsLoop i enums rest out
    | some v =>
      match OPTION_EXTRACTORS o.type with
      | none => .error .keyError
      | some ex =>
        match ex i v with
        | .error e => .error e
        | .ok ev =>
          match (enums.find? (fun kv => kv.1 == o.name)).map (fun kv => kv.2) with
          | none => extractOptionsLoop i enums rest (dictSetE out o.name ev)
          | some members =>
            match ev with
            | .prim p =>
              if members.contains p then
                extractOptionsLoop i enums rest (dictSetE out o.name (.prim p))
              else .error .valueError
            | _ => .error .valueError

/-- Embeds `extract_options(interaction, enums)` (extractors.py:47-59).  The
function declares TWO required positional parameters; iterating `None`
options raises `TypeError` (callers guard for `None` first). -/
def extract_options (i : InteractionM) (enums : List (String × List Prim)) :
    Except PyErr (List (String × ExtractedVal)) :=
  match i.data.options with
  | none => .error .typeError
  | some opts => extractOptionsLoop i enums opts []

/-! ## Command invocation (`command.py`, `checks.py`) -/
/-- Embeds `roid.command.PassTarget` (command.py:125-129). -/
inductive PassTarget where
  | NONE
  | MESSAGE
  | USER
  | MEMBER
deriving DecidableEq, Repr

/-- The observable behavior of a user check callback
(`CommandCheck._callback` / `_on_reject`): return the interaction
unchanged, or raise. -/
inductive CheckSpec where
  | pass
  | raiseErr (e : PyErr)
deriving DecidableEq, Repr

/-- A registered `roid.checks.CommandCheck` (checks.py:21-30). -/
structure CheckModel where
  body : CheckSpec
  onReject : Option CheckSpec
deriving DecidableEq, Repr

/-- A registered command error handler (`Command.error`,
command.py:530-547); `none` below stands for the initial
`default_on_error`, which re-raises (command.py:121-122). -/
inductive ErrHandlerSpec where
  | respond (content : String)
deriving DecidableEq, Repr

/-- The registration-time shape of a `roid.command.Command`
(command.py:177-253): its type, the context-menu pass target, the
callable-adapter injection flags, the registered option defaults
(`_option_defaults`), the check pipeline and the error handler. -/
structure CommandModel where
  cmdType : CommandType
  passTarget : PassTarget
  passTargetName : String
  passInteractionTo : Option String
  passApp : Bool
  optionDefaults : List (String × OptDefault)
  checks : List CheckModel
  onError : Option ErrHandlerSpec
deriving DecidableEq, Repr

/-- Embeds `Command._get_option_data` (command.py:404-414).  When the interaction
carries no options dict the method returns `{}` (without filling defaults).
Otherwise the source executes `options = extract_options(interaction)`
(command.py:408) — but `extract_options` (extractors.py:47) declares two
required positional parameters `(interaction, enums)`, so under Python
calling conventions the call raises
`TypeError: extract_options() missing 1 required positional argument`
before the callee body runs; the defaults-filling loop at
command.py:410-413 is unreachable whenever options are present. -/
def commandGetOptionData (_cmd : CommandModel) (i : InteractionM) :
    Except PyErr (List (String × ExtractedVal)) :=
  match i.data.options with
  | none => .ok []
  | some _ => .error .typeError

/-- Embeds `Command._get_kwargs` (command.py:438-472): the base injected kwargs,
extended per command type — extracted options for `CHAT_INPUT`, the
resolved target message/user/member for context-menu commands — merged as
`{**kwargs, **extend}`. -/
def commandGetKwargs (cmd : CommandModel) (i : InteractionM) :
    Except PyErr Kwargs := do
  let base := baseKwargs cmd.passInteractionTo cmd.passApp
  let extend : List (Option String × KwVal) ←
    match cmd.cmdType, cmd.passTarget with
    | .CHAT_INPUT, _ => do
      let opts ← commandGetOptionData cmd i
      pure (opts.map (fun kv => ((some kv.1 : Option String), KwVal.opt kv.2)))
    | .MESSAGE, .MESSAGE => do
      let r ← getResolved i
      match i.data.targetId with
      | none => .error .keyError
      | some tid => do
        let m ← lookupSnowflake r.messages tid
        pure [((some cmd.passTargetName : Option String), KwVal.opt (.messageEnt m))]
    | .USER, .USER => do
      let r ← getResolved i
      match i.data.targetId with
      | none => .error .keyError
      | some tid => do
        let u ← lookupSnowflake r.users tid
        pure [((some cmd.passTargetName : Option String), KwVal.opt (.userEnt u))]
    | .USER, .MEMBER => do
      let r ← getResolved i
      match i.data.targetId with
      | none => .error .keyError
      | some tid => do
        let m ← lookupSnowflake r.members tid
        let u ← lookupSnowflake r.users tid
        pure [((some cmd.passTargetName : Option String),
          KwVal.opt (.member { m with user := some u }))]
    | _, _ => pure []
  pure (extend.foldl (fun acc kv => dictSet acc kv.1 kv.2) base)

/-- Embeds `CommandCheck.__call__` as written (checks.py:32-42), invoked with the
single `interaction` parameter it declares: the callback body runs; on an
exception the `on_reject` callback is invoked — when `_on_reject` is `None`
that very call (`self._on_reject(interaction, e)`) raises
`TypeError: NoneType is not callable`.  The second component records that
the check body executed. -/
def commandCheckCall (c : CheckModel) (i : InteractionM) :
    Except PyErr InteractionM × Bool :=
  match c.body with
  | .pass => (.ok i, true)
  | .raiseErr _ =>
    match c.onReject with
    | none => (.error .typeError, true)
    | some .pass => (.ok i, true)
    | some (.raiseErr e') => (.error e', true)

/-- The check invocation as the pipeline performs it:
`interaction = await check(app, interaction)` (command.py:484).
`CommandCheck.__call__` (checks.py:32) declares `(self, interaction)` — two
positional parameters — while this call passes three (the bound instance,
the app, the interaction), so Python raises
`TypeError: __call__() takes 2 positional arguments but 3 were given`
WITHOUT entering the method: the check body never runs (second component
`false`). -/
def checkCallSite (_c : CheckModel) (_i : InteractionM) :
    Except PyErr InteractionM × Bool :=
  (.error .typeError, false)

/-- The `for check in self._checks_pipeline:` loop (command.py:483-484),
counting how many check bodies actually executed. -/
def runChecksLoop : List CheckModel → InteractionM →
    Except PyErr InteractionM × Nat
  | [], i => (.ok i, 0)
  | c :: rest, i =>
    let (r, ran) := checkCallSite c i
    let cnt : Nat := if ran then 1 else 0
    match r with
    | .ok i' =>
      let (r', n) := runChecksLoop rest i'
      (r', cnt + n)
    | .error e => (.error e, cnt)

/-- The result of `Command.__call__`. -/
inductive CmdResult where
  | invoked (kwargs : Kwargs)
  | errorHandled (e : PyErr) (content : String)
  | autocompleteRouted
deriving DecidableEq, Repr

/-- The observable outcome of one command dispatch: the result (or the
exception propagating out of `Command.__call__`), how many check bodies
executed, and whether the main handler body ran. -/
structure CommandCallOut where
  result : Except PyErr CmdResult
  checkBodiesRan : Nat
  handlerRan : Bool
deriving DecidableEq, Repr

/-- Embeds `Command.__call__` (command.py:474-488): autocomplete interactions are
routed to `_handle_autocomplete`, bypassing the checks; otherwise the check
pipeline runs inside a `try` whose handler forwards the raised exception to
`_invoke_error_handler` — `default_on_error` re-raises, a registered
handler's return value becomes the response; when the loop completes,
`_invoke` resolves the kwargs (errors from it propagate uncaught — the
`try` wraps only the loop) and runs the handler. -/
def commandCall (cmd : CommandModel) (i : InteractionM) : CommandCallOut :=
  if i.type = InteractionType.APPLICATION_COMMAND_AUTOCOMPLETE then
    ⟨.ok .autocompleteRouted, 0, false⟩
  else
    match runChecksLoop cmd.checks i with
    | (.error e, n) =>
      match cmd.onError with
      | none => ⟨.error e, n, false⟩
      | some (.respond content) => ⟨.ok (.errorHandled e content), n, false⟩
    | (.ok i', n) =>
      match commandGetKwargs cmd i' with
      | .error e => ⟨.error e, n, false⟩
      | .ok kwargs => ⟨.ok (.invoked kwargs), n, true⟩

/-- The `echo` scenario's option payload:
`data.options = [{name: "message", value: "hi"}]`. -/
def echoOptionData : OptionDataM := ⟨"message", .STRING, some (.str "hi"), false⟩

/-- The `echo` scenario's inbound APPLICATION_COMMAND interaction. -/
def echoInteraction : InteractionM :=
  ⟨1, .APPLICATION_COMMAND,
   ⟨some "echo", none, some [echoOptionData], none, none, none⟩, "tok"⟩

/-- The registered `echo` command: `CHAT_INPUT`, one required string option
`message`, no checks, no error handler (tests/app.py:13-29). -/
def echoCommand : CommandModel :=
  ⟨.CHAT_INPUT, .NONE, "_", none, false, [("message", .ellipsis)], [], none⟩

/-- An always-passing registered check. -/
def passCheck : CheckModel := ⟨.pass, none⟩

/-- A command with one registered check and no options. -/
def checkedCommand : CommandModel :=
  ⟨.CHAT_INPUT, .NONE, "_", none, false, [], [passCheck], none⟩

/-- A plain APPLICATION_COMMAND interaction with no options. -/
def plainCommandInteraction : InteractionM :=
  ⟨2, .APPLICATION_COMMAND, ⟨some "cmd", none, none, none, none, none⟩, "tok"⟩

theorem data_append (s t : String) : (s ++ t).data = s.data ++ t.data := rfl

theorem pySplitOnceAux_no_colon (base r acc : List Char) (h : ':' ∉ base) :
    pySplitOnceAux (base ++ ':' :: r) acc = (acc.reverse ++ base, some r) := by
  induction base generalizing acc with
  | nil => simp [pySplitOnceAux]
  | cons c tl ih =>
    have hc : ¬ (c = ':') := by
      intro e
      exact h (e ▸ List.mem_cons_self c tl)
    have htl : ':' ∉ tl := fun m => h (List.mem_cons_of_mem c m)
    have step : pySplitOnceAux ((c :: tl) ++ ':' :: r) acc
        = pySplitOnceAux (tl ++ ':' :: r) (c :: acc) := by
      simp [pySplitOnceAux, hc]
    rw [step, ih (c :: acc) htl]
    simp

theorem pySplitOnce_concat (base r : String) (hb : ':' ∉ base.data) :
    pySplitOnce (concatCustomId base r) = (base, some r) := by
  have h1 : (":" : String).data = [':'] := rfl
  have hdata : (concatCustomId base r).data = base.data ++ ':' :: r.data := by
    show (base ++ ":" ++ r).data = _
    rw [data_append, data_append, h1, List.append_assoc]
    rfl
  unfold pySplitOnce
  rw [hdata, pySplitOnceAux_no_colon base.data r.data [] hb]
  simp

theorem storeGet_set_self (s : ManagedStore) (k : String) (v : StoredCtx) :
    storeGet (storeSet s k v) k = some v := by
  simp [storeGet, storeSet, List.find?]

theorem storeGet_remove_self (s : ManagedStore) (k : String) :
    storeGet (storeRemove s k) k = none := by
  induction s with
  | nil => rfl
  | cons kv tl ih =>
    by_cases h : kv.1 = k
    · simp [storeRemove, storeGet, List.filter, h]
    · have hb : (kv.1 == k) = false := by
        simpa [beq_iff_eq] using h
      simp [storeRemove, storeGet, List.filter, List.find?, hb]

theorem dbLookup_delete_self (db : SqliteDb) (key : String) :
    dbLookup (sqliteDelete db key) key = none := by
  induction db with
  | nil => rfl
  | cons kv tl ih =>
    by_cases h : kv.1 = key
    · simp [sqliteDelete, dbLookup, List.filter, h]
    · have hb : (kv.1 == key) = false := by simpa [beq_iff_eq] using h
      simp [sqliteDelete, dbLookup, List.filter, List.find?, hb]

/-- C5 (corrected): the claim as stated quantifies over every custom
identifier `base` and only restricts the reference id `r` to contain no
delimiter.  That fails when `base` itself contains the delimiter, because
both inbound splits take the FIRST `':'`: with `base = "a:b"` and `r = "c"`
the split of `"a:b:c"` yields `("a", some "b:c")`, not `("a:b", some "c")`. -/
theorem custom_id_split_first_colon_counterexample :
    pySplitOnce (concatCustomId "a:b" "c") = ("a", some "b:c") ∧
    ¬ (pySplitOnce (concatCustomId "a:b" "c") = ("a:b", some "c")) := by
  constructor
  · decide
  · decide

/-- C5 (amended): for every custom identifier `base` containing no `':'`
delimiter and every reference id `r` containing no `':'` delimiter,
concatenating them as `base:r` at send time (response.py:229,263) and
splitting the inbound custom identifier on the first `':'` when the
component is clicked yields exactly `base` as the registry lookup key
(app.py:243) and exactly `r` as the reference id (components.py:316-321). -/
theorem custom_id_split_roundtrip (base r : String)
    (hb : ':' ∉ base.data) (hr : ':' ∉ r.data) :
    (pySplitOnce (concatCustomId base r)).1 = base ∧
    (pySplitOnce (concatCustomId base r)).2 = some r := by
  rw [pySplitOnce_concat base r hb]
  exact ⟨rfl, rfl⟩

/-- Witness for C5's amended round-trip at `base = "button"`, `r = "ref1"`. -/
theorem custom_id_split_roundtrip_witness :
    (pySplitOnce (concatCustomId "button" "ref1")).1 = "button" ∧
    (pySplitOnce (concatCustomId "button" "ref1")).2 = some "ref1" :=
  custom_id_split_roundtrip "button" "ref1" (by decide) (by decide)

/-- C6 (confirmed): a key stored in the embedded SQLite backend with
`ttl = T` at time `t` is retrievable by `get` before `t + T` and absent
after `t + T` has elapsed; the backend evicts lazily on that `get` by
comparing the stored expiry to the current time and deleting the expired
row (storage.py:181-215). -/
theorem sqlite_ttl_expiry (db db' : SqliteDb) (key value : String)
    (T t t' : Nat) (hset : sqliteSet db key value (some T) t = .ok db') :
    (t' < t + T → (sqliteGet db' key t').1 = some value) ∧
    (t' > t + T → (sqliteGet db' key t').1 = none ∧
      dbLookup (sqliteGet db' key t').2 key = none) := by
  unfold sqliteSet at hset
  by_cases hp : (dbLookup db key).isSome
  · simp [hp] at hset
  · simp [hp] at hset
    subst hset
    have hl : dbLookup ((key, (⟨value, some (t + T)⟩ : SqliteRow)) :: db) key
        = some ⟨value, some (t + T)⟩ := by
      simp [dbLookup, List.find?]
    constructor
    · intro hlt
      have hng : ¬ (t' > t + T) := by omega
      simp [sqliteGet, hl, hng]
    · intro hgt
      refine ⟨by simp [sqliteGet, hl, hgt], ?_⟩
      simp [sqliteGet, hl, hgt, dbLookup_delete_self]

/-- Witness for C6: a key stored at time 0 with ttl 10 is retrievable at
time 3 and absent at time 12. -/
theorem sqlite_ttl_expiry_witness :
    (sqliteGet [("k", ⟨"v", some 10⟩)] "k" 3).1 = some "v" ∧
    (sqliteGet [("k", ⟨"v", some 10⟩)] "k" 12).1 = none :=
  ⟨(sqlite_ttl_expiry [] [("k", ⟨"v", some 10⟩)] "k" "v" 10 0 3 rfl).1
      (by decide),
   ((sqlite_ttl_expiry [] [("k", ⟨"v", some 10⟩)] "k" "v" 10 0 12 rfl).2
      (by decide)).1⟩

/-- C10 (confirmed): the embedded SQLite backend's `store` does not
overwrite: when the key is already present, the bare `INSERT` (no
upsert/replace clause, storage.py:192-195) violates the PRIMARY KEY
constraint and the operation fails with an IntegrityError instead of
replacing the stored value; after an intervening remove the same store
succeeds. -/
theorem sqlite_store_no_overwrite (db db' : SqliteDb) (key v1 v2 : String)
    (ttl1 ttl2 : Option Nat) (t1 t2 : Nat)
    (h : sqliteSet db key v1 ttl1 t1 = .ok db') :
    sqliteSet db' key v2 ttl2 t2 = .error .integrityError ∧
    ∃ db'', sqliteSet (sqliteDelete db' key) key v2 ttl2 t2 = .ok db'' := by
  unfold sqliteSet at h
  by_cases hp : (dbLookup db key).isSome
  · simp [hp] at h
  · simp [hp] at h
    subst h
    constructor
    · simp [sqliteSet, dbLookup, List.find?]
    · refine ⟨(key, ⟨v2, ttl2.map (fun t => t2 + t)⟩) ::
        sqliteDelete ((key, ⟨v1, ttl1.map (fun t => t1 + t)⟩) :: db) key, ?_⟩
      simp [sqliteSet, dbLookup_delete_self]

/-- Witness for C10: after storing under `"k"`, a second store of `"k"`
fails with an IntegrityError; after deleting `"k"` it succeeds. -/
theorem sqlite_store_no_overwrite_witness :
    sqliteSet [("k", ⟨"v1", none⟩)] "k" "v2" none 5 = .error .integrityError ∧
    ∃ db'', sqliteSet (sqliteDelete [("k", ⟨"v1", none⟩)] "k") "k" "v2" none 5
      = .ok db'' :=
  sqlite_store_no_overwrite [] [("k", ⟨"v1", none⟩)] "k" "v1" "v2" none none 0 5
    rfl

theorem componentGetKwargs_found
    (c : ComponentModel) (i : InteractionM) (store : ManagedStore)
    (base ref : String) (ctx : StoredCtx)
    (hone : c.oneshot = true)
    (hcid : i.data.customId = some (concatCustomId base ref))
    (hbase : ':' ∉ base.data)
    (hstore : storeGet store (prefKey COMMAND_STATE_TARGET ref) = some ctx) :
    ∃ kw, componentGetKwargs c i store
      = (.ok (kw, ⟨some ctx, some ref⟩),
         storeRemove store (prefKey COMMAND_STATE_TARGET ref)) := by
  have hsplit : pySplitOnce (concatCustomId base ref) = (base, some ref) :=
    pySplitOnce_concat base ref hbase
  simp only [componentGetKwargs, hcid, hsplit, pyStr, hstore, hone,
    Option.isNone_some, Bool.false_and, Bool.false_eq_true, if_false, if_true]
  rcases hv : i.data.values with _ | (_ | ⟨v, tl⟩) <;>
    rcases hmin : c.minValues with _ | (_ | (_ | m)) <;>
      rcases hmax : c.maxValues with _ | (_ | (_ | m')) <;>
        exact ⟨_, rfl⟩

/-- C2 (confirmed): invoking a `oneshot=True` component whose interaction
carries a reference id bound to a stored `InvokeContext` runs the handler
with that context, and `Component._get_kwargs` removes the entry after
reading it and before the callback runs (components.py:325,337-338), so the
store `_get_kwargs` hands to the invocation already lacks the entry; a later
sequential click with the same reference id finds no stored context and,
when the handler's context parameter has no default, raises the expired
`AbortInvoke` instead of running the handler (components.py:330-335). -/
theorem oneshot_consumes_context_before_handler
    (c : ComponentModel) (i : InteractionM) (store : ManagedStore)
    (base ref : String) (ctx : StoredCtx)
    (hone : c.oneshot = true)
    (hcid : i.data.customId = some (concatCustomId base ref))
    (hbase : ':' ∉ base.data)
    (hstore : storeGet store (prefKey COMMAND_STATE_TARGET ref) = some ctx) :
    ∃ kw,
      componentInvoke c i store =
        (.handlerRan kw ⟨some ctx, some ref⟩,
         storeRemove store (prefKey COMMAND_STATE_TARGET ref)) ∧
      storeGet (componentGetKwargs c i store).2
        (prefKey COMMAND_STATE_TARGET ref) = none ∧
      (passContextNotInDefaults c = true →
        (componentInvoke c i (componentInvoke c i store).2).1
          = .raised expiredAbort) := by
  obtain ⟨kw, hkw⟩ :=
    componentGetKwargs_found c i store base ref ctx hone hcid hbase hstore
  have hsplit : pySplitOnce (concatCustomId base ref) = (base, some ref) :=
    pySplitOnce_concat base ref hbase
  have hinv : componentInvoke c i store
      = (.handlerRan kw ⟨some ctx, some ref⟩,
         storeRemove store (prefKey COMMAND_STATE_TARGET ref)) := by
    simp [componentInvoke, hkw]
  refine ⟨kw, hinv, ?_, ?_⟩
  · rw [hkw]
    exact storeGet_remove_self store (prefKey COMMAND_STATE_TARGET ref)
  · intro hreq
    rw [hinv]
    have hget2 : storeGet (storeRemove store (prefKey COMMAND_STATE_TARGET ref))
        (prefKey COMMAND_STATE_TARGET ref) = none :=
      storeGet_remove_self store (prefKey COMMAND_STATE_TARGET ref)
    simp [componentInvoke, componentGetKwargs, hcid, hsplit, pyStr, hget2, hreq]

/-- Witness for C2 at the inputs above. -/
theorem oneshot_consumes_context_before_handler_witness :
    ∃ kw,
      componentInvoke witnessComponent witnessInteraction witnessStore =
        (.handlerRan kw ⟨some witnessCtx, some "r1"⟩,
         storeRemove witnessStore (prefKey COMMAND_STATE_TARGET "r1")) ∧
      storeGet (componentGetKwargs witnessComponent witnessInteraction witnessStore).2
        (prefKey COMMAND_STATE_TARGET "r1") = none ∧
      (passContextNotInDefaults witnessComponent = true →
        (componentInvoke witnessComponent witnessInteraction
          (componentInvoke witnessComponent witnessInteraction witnessStore).2).1
          = .raised expiredAbort) :=
  oneshot_consumes_context_before_handler witnessComponent witnessInteraction
    witnessStore "btn" "r1" witnessCtx rfl (by decide) (by decide) (by decide)

/-- C1 (code bug): under the interleaving `A.get, B.get, A.remove, B.remove`
— realizable because each `await` on the state store suspends the clicking
task — BOTH concurrent clicks of a oneshot component fetch the stored
`InvokeContext` and run the handler with it: the stored context is consumed
twice and neither click receives the expired-interaction outcome, refuting
the claimed at-most-once semantics of the separate get-then-remove calls
(components.py:325,338). -/
theorem oneshot_concurrent_double_consume :
    runSchedule raceKey [true, false, true, false]
      (.ready, .ready, [(raceKey, raceCtx)]) =
    (.finished (.ranWith raceCtx), .finished (.ranWith raceCtx), []) := by
  decide

/-- Sequential consumption behaves as the claim intends: when the first
click completes both its operations before the second starts, exactly one
click runs with the context and the other expires. -/
theorem oneshot_sequential_at_most_once :
    runSchedule raceKey [true, true, false, false]
      (.ready, .ready, [(raceKey, raceCtx)]) =
    (.finished (.ranWith raceCtx), .finished .expired, []) := by
  decide

/-- The task decomposition agrees with the atomic embedding of
`Component._invoke`: one click run in isolation produces the same final
store as `componentInvoke`, and its handler receives the same context. -/
theorem oneshot_task_matches_componentInvoke
    (c : ComponentModel) (i : InteractionM) (store : ManagedStore)
    (base ref : String) (ctx : StoredCtx)
    (hone : c.oneshot = true)
    (hcid : i.data.customId = some (concatCustomId base ref))
    (hbase : ':' ∉ base.data)
    (hstore : storeGet store (prefKey COMMAND_STATE_TARGET ref) = some ctx) :
    (runSchedule (prefKey COMMAND_STATE_TARGET ref) [true, true]
        (.ready, .ready, store)).1 = .finished (.ranWith ctx) ∧
    (runSchedule (prefKey COMMAND_STATE_TARGET ref) [true, true]
        (.ready, .ready, store)).2.2 = (componentInvoke c i store).2 := by
  obtain ⟨kw, hkw⟩ :=
    componentGetKwargs_found c i store base ref ctx hone hcid hbase hstore
  have hinv : (componentInvoke c i store).2
      = storeRemove store (prefKey COMMAND_STATE_TARGET ref) := by
    simp [componentInvoke, hkw]
  constructor
  · simp [runSchedule, oneshotStep, hstore]
  · simp [runSchedule, oneshotStep, hstore, hinv]

/-- C3 (code bug): when normalization of `respC3` raises on the third row,
the rollback loop removes keys built from the already-suffixed custom ids
(`state.remove(c.custom_id)` with `c.custom_id = "b1:ref0"` etc.,
response.py:189-201) while the entries were stored under the bare reference
ids (`state.set(reference_id, ...)`, response.py:230,264), so after the
raise every `InvokeContext` entry written for the response is still
retrievable — the claim that the store is left as it was before
normalization began fails on the code, against the rollback's own stated
purpose. -/
theorem rollback_leaves_orphaned_context_entries :
    (intoResponsePayload genRef respC3 .CHANNEL_MESSAGE_WITH_SOURCE
        (some 99) ([], 0)).1 = .error .valueError ∧
    storeGet (intoResponsePayload genRef respC3 .CHANNEL_MESSAGE_WITH_SOURCE
        (some 99) ([], 0)).2.1 (prefKey COMMAND_STATE_TARGET "ref0")
      = some ⟨some 99, [("k", "v")]⟩ ∧
    storeGet (intoResponsePayload genRef respC3 .CHANNEL_MESSAGE_WITH_SOURCE
        (some 99) ([], 0)).2.1 (prefKey COMMAND_STATE_TARGET "ref1")
      = some ⟨some 99, [("k", "v")]⟩ ∧
    storeGet (intoResponsePayload genRef respC3 .CHANNEL_MESSAGE_WITH_SOURCE
        (some 99) ([], 0)).2.1 (prefKey COMMAND_STATE_TARGET "ref2")
      = some ⟨some 99, [("k", "v")]⟩ :=
  ⟨rfl, rfl, rfl, rfl⟩

/-- C9 (corrected) counterexample: a row that puts a select menu FIRST and a
button after it passes validation — `process_block` only rejects a select
added to a non-empty row (response.py:253-257) — so the normalized payload
carries a row in which a select menu shares the row with a button, refuting
the claim that every such row is rejected. -/
theorem select_sharing_row_accepted_counterexample :
    (intoResponsePayload genRef respC9 .CHANNEL_MESSAGE_WITH_SOURCE
        none ([], 0)).1
      = .ok ⟨.CHANNEL_MESSAGE_WITH_SOURCE,
          some ⟨none, 0, false, none,
            some [[⟨.SELECT_MENU, some "s1:ref0", none⟩,
                   ⟨.BUTTON, some "b1:ref1", none⟩]]⟩⟩ := rfl

theorem processBlockItems_select_after_component
    (gen : Nat → String) (parent : Option Int) (cctx : List (String × String))
    (d : CompCtxM) (hsel : d.type = ComponentType.SELECT_MENU) :
    ∀ (pre rest : List RowItem) (st : ManagedStore × Nat)
      (acc : List CompCtxM),
      (∀ x ∈ pre, ∃ cdata, x = RowItem.comp cdata) →
      (pre = [] → acc ≠ []) →
      (processBlockItems gen parent cctx (pre ++ RowItem.comp d :: rest) st acc).result
        = .error .valueError := by
  intro pre
  induction pre with
  | nil =>
    intro rest st acc _ hacc
    have hne : acc ≠ [] := hacc rfl
    have hlen : acc.length > 0 := List.length_pos.mpr hne
    simp [processBlockItems, hsel, hlen]
  | cons x tl ih =>
    intro rest st acc hcomp hacc
    obtain ⟨cdata, hx⟩ := hcomp x (List.mem_cons_self x tl)
    subst hx
    by_cases hc : cdata.type = ComponentType.SELECT_MENU ∧ acc.length > 0
    · simp [processBlockItems, hc]
    · have hstep : processBlockItems gen parent cctx
          ((RowItem.comp cdata :: tl) ++ RowItem.comp d :: rest) st acc
          = processBlockItems gen parent cctx (tl ++ RowItem.comp d :: rest)
              (writeInvokeContext gen st parent cctx cdata).2
              (acc ++ [(writeInvokeContext gen st parent cctx cdata).1]) := by
        simp [processBlockItems, hc]
      rw [hstep]
      apply ih
      · intro y hy
        exact hcomp y (List.mem_cons_of_mem _ hy)
      · intro _
        simp

/-- C9 (amended): response normalization rejects (raises `ValueError`
before any response is returned) every response with more than 5 component
rows (response.py:171-176), and rejects every row in which a select menu
appears after another component already placed on the row
(response.py:253-257) — a select only ever shares a row with components
that were appended after it, since a select added to a non-empty row is
rejected but nothing stops later components from joining a row whose first
entry is a select. -/
theorem response_size_and_select_row_validation
    (gen : Nat → String) (r : ResponseM) (defaultType : ResponseType)
    (parent parent2 : Option Int) (st st2 : ManagedStore × Nat)
    (blocks : List Block) (cctx : List (String × String))
    (pre rest : List RowItem) (d : CompCtxM)
    (hcomps : r.components = some blocks)
    (hlen : blocks.length > 5)
    (hpre : pre ≠ [])
    (hprecomp : ∀ x ∈ pre, ∃ cdata, x = RowItem.comp cdata)
    (hsel : d.type = ComponentType.SELECT_MENU) :
    (intoResponsePayload gen r defaultType parent st).1 = .error .valueError ∧
    (processBlock gen parent2 cctx
        (.row (pre ++ RowItem.comp d :: rest)) st2).result
      = .error .valueError := by
  constructor
  · have hne : blocks ≠ [] := by
      intro e
      rw [e] at hlen
      simp at hlen
    have hEmpty : responseIsEmpty r = false := by
      simp [responseIsEmpty, hcomps]
      omega
    simp [intoResponsePayload, hEmpty, hcomps, hlen]
  · exact processBlockItems_select_after_component gen parent2 cctx d hsel
      pre rest st2 [] hprecomp (fun e => absurd e hpre)

/-- Witness for C9's amended validation: a six-row response is rejected,
and a row `[button, select]` is rejected. -/
theorem response_size_and_select_row_validation_witness :
    (intoResponsePayload genRef
        ⟨none, 0, false, none,
         some [.single (btnCtx "b1"), .single (btnCtx "b2"),
               .single (btnCtx "b3"), .single (btnCtx "b4"),
               .single (btnCtx "b5"), .single (btnCtx "b6")],
         [], false, none⟩
        .CHANNEL_MESSAGE_WITH_SOURCE none ([], 0)).1 = .error .valueError ∧
    (processBlock genRef none []
        (.row ([RowItem.comp (btnCtx "b1")] ++ RowItem.comp (selCtx "s1") :: []))
        ([], 0)).result = .error .valueError :=
  response_size_and_select_row_validation genRef
    ⟨none, 0, false, none,
     some [.single (btnCtx "b1"), .single (btnCtx "b2"),
           .single (btnCtx "b3"), .single (btnCtx "b4"),
           .single (btnCtx "b5"), .single (btnCtx "b6")],
     [], false, none⟩
    .CHANNEL_MESSAGE_WITH_SOURCE none none ([], 0) ([], 0)
    [.single (btnCtx "b1"), .single (btnCtx "b2"), .single (btnCtx "b3"),
     .single (btnCtx "b4"), .single (btnCtx "b5"), .single (btnCtx "b6")]
    [] [RowItem.comp (btnCtx "b1")] [] (selCtx "s1")
    rfl (by decide) (by decide)
    (by
      intro x hx
      simp at hx
      exact ⟨btnCtx "b1", hx⟩)
    rfl

/-- C4 (corrected) counterexample: for a request whose supplied signature
cannot verify — `"zz"` does not even decode as hex, under a verifier that
accepts nothing — the route does not return HTTP 401: the `ValueError` from
`bytes.fromhex` is outside the `except (BadSignatureError, KeyError)`
clause (app.py:215) and escapes uncaught. -/
theorem unauthorized_nonhex_signature_counterexample :
    pyBytesFromHex "zz" = none ∧
    (root (fun _ _ => false) (fun _ => none) (fun _ => none) [] []
        reqBadHex).1 = .error (.uncaught .valueError) ∧
    ¬ ((root (fun _ _ => false) (fun _ => none) (fun _ => none) [] []
        reqBadHex).1 = .error (.http 401)) := by
  refine ⟨rfl, rfl, ?_⟩
  intro h
  simp [root, reqBadHex, pyBytesFromHex, pyBytesFromHexAux, hexVal] at h

/-- C4 (amended): for every inbound POST request, (1) a missing signature
or timestamp header yields HTTP 401 with the body neither parsed as JSON
nor validated as an Interaction; (2) a signature header that decodes to 64
signature bytes failing Ed25519 verification over `timestamp ++ body`
yields HTTP 401, again without touching the body; (3) a signature header
that does not decode to a 64-byte signature makes the route fail with an
uncaught `ValueError` instead of 401 — and still without parsing the
body. -/
theorem unauthorized_before_parse
    (verifySig : String → List Nat → Bool)
    (jsonLoads : String → Option PyJson)
    (validateInteraction : PyJson → Option InteractionM)
    (commands components : List String) (req : RawRequest) :
    (req.signatureHeader = none ∨ req.timestampHeader = none →
      root verifySig jsonLoads validateInteraction commands components req
        = (.error (.http 401), [])) ∧
    (∀ sig ts sigBytes, req.signatureHeader = some sig →
      req.timestampHeader = some ts →
      pyBytesFromHex sig = some sigBytes → sigBytes.length = 64 →
      verifySig (ts ++ req.body) sigBytes = false →
      root verifySig jsonLoads validateInteraction commands components req
        = (.error (.http 401), [])) ∧
    (∀ sig ts, req.signatureHeader = some sig →
      req.timestampHeader = some ts →
      (pyBytesFromHex sig = none ∨
        ∀ sigBytes, pyBytesFromHex sig = some sigBytes → sigBytes.length ≠ 64) →
      root verifySig jsonLoads validateInteraction commands components req
        = (.error (.uncaught .valueError), [])) := by
  refine ⟨?_, ?_, ?_⟩
  · rintro (h | h)
    · simp [root, h]
    · rcases hs : req.signatureHeader with _ | sig
      · simp [root, hs]
      · simp [root, hs, h]
  · intro sig ts sigBytes hs ht hdec hlen hver
    simp [root, hs, ht, hdec, hlen, hver]
  · intro sig ts hs ht hbad
    rcases hbad with h | h
    · simp [root, hs, ht, h]
    · rcases hdec : pyBytesFromHex sig with _ | sigBytes
      · simp [root, hs, ht, hdec]
      · have hlen := h sigBytes hdec
        simp [root, hs, ht, hdec, hlen]

set_option maxRecDepth 4000 in
/-- Witness for C4's amended behavior: one request per branch — missing
signature header; an all-zero 64-byte signature rejected by a verifier that
accepts nothing; and the non-hex signature header. -/
theorem unauthorized_before_parse_witness :
    root (fun _ _ => false) (fun _ => none) (fun _ => none) [] []
      ⟨none, some "123", "body"⟩ = (.error (.http 401), []) ∧
    root (fun _ _ => false) (fun _ => none) (fun _ => none) [] []
      ⟨some (String.mk (List.replicate 128 '0')), some "123", "body"⟩
      = (.error (.http 401), []) ∧
    root (fun _ _ => false) (fun _ => none) (fun _ => none) [] []
      reqBadHex = (.error (.uncaught .valueError), []) :=
  ⟨(unauthorized_before_parse (fun _ _ => false) (fun _ => none)
      (fun _ => none) [] [] ⟨none, some "123", "body"⟩).1 (Or.inl rfl),
   (unauthorized_before_parse (fun _ _ => false) (fun _ => none)
      (fun _ => none) [] []
      ⟨some (String.mk (List.replicate 128 '0')), some "123", "body"⟩).2.1
     (String.mk (List.replicate 128 '0')) "123" (List.replicate 64 0)
     rfl rfl (by decide) (by decide) rfl,
   (unauthorized_before_parse (fun _ _ => false) (fun _ => none)
      (fun _ => none) [] [] reqBadHex).2.2 "zz" "123" rfl rfl
     (Or.inl (by decide))⟩

/-- C7 (code bug): dispatching the `echo` interaction raises `TypeError`
instead of invoking the handler with `message="hi"`: `_get_option_data`
calls the two-parameter `extract_options` with a single argument
(command.py:408 vs extractors.py:47), so the handler body never runs and no
response carrying `content="hi"` is produced. -/
theorem echo_dispatch_raises_type_error :
    commandCall echoCommand echoInteraction
      = ⟨.error .typeError, 0, false⟩ := rfl

/-- Had `_get_option_data` passed the required `enums` argument, the
extraction machinery the claim describes works as stated: the `echo`
payload yields `message = "hi"`, an option reported with a null value is
silently skipped, and the handler's `Response(content="hi")` normalizes to
a `CHANNEL_MESSAGE_WITH_SOURCE` payload with `data.content = "hi"`. -/
theorem echo_intended_extraction_and_response :
    extract_options echoInteraction [] = .ok [("message", .prim (.str "hi"))] ∧
    extract_options
      ⟨1, .APPLICATION_COMMAND,
       ⟨some "echo", none,
        some [⟨"message", .STRING, none, false⟩,
              ⟨"other", .STRING, some (.str "x"), false⟩],
        none, none, none⟩, "tok"⟩ []
      = .ok [("other", .prim (.str "x"))] ∧
    (intoResponsePayload genRef ⟨some "hi", 0, false, none, none, [], false, none⟩
        .CHANNEL_MESSAGE_WITH_SOURCE none ([], 0)).1
      = .ok ⟨.CHANNEL_MESSAGE_WITH_SOURCE,
          some ⟨some "hi", 0, false, none, none⟩⟩ :=
  ⟨rfl, rfl, rfl⟩

/-- C8 (code bug): for a non-autocomplete invocation of a command with a
registered check, the pipeline's very first check invocation raises
`TypeError` (the call passes `(app, interaction)` to the two-parameter
`CommandCheck.__call__`, command.py:484 vs checks.py:32): zero check bodies
execute — so the checks do not run in registration order as claimed — the
exception is routed to the command error handler (`default_on_error`
re-raises it), and the main handler body never runs. -/
theorem check_pipeline_call_raises_type_error :
    commandCall checkedCommand plainCommandInteraction
      = ⟨.error .typeError, 0, false⟩ := rfl

/-- The check machinery itself (checks.py:32-42) matches the claim when
invoked with the single parameter it declares: the body runs and returns
the interaction; a raising body with no `on_reject` propagates a
`TypeError` from calling `None`. -/
theorem commandCheckCall_runs_body :
    commandCheckCall passCheck plainCommandInteraction
      = (.ok plainCommandInteraction, true) ∧
    commandCheckCall ⟨.raiseErr .valueError, none⟩ plainCommandInteraction
      = (.error .typeError, true) :=
  ⟨rfl, rfl⟩

end Roid
